import Mathlib

/-!
Verification development for scripts/get_tesla_token.py.

The Python script is shallowly embedded below: pure fragments become Lean
functions, the stateful callback-capture server becomes explicit state
passing over a request list, and every network call site is parameterised
by the response it would receive ((status, payload, raw_err) triples).
JSON payloads are modelled by the inductive type Json together with
Python-style truthiness; Python strings that only flow through split,
strip, lower, and so on are handled by structural character-list
functions so that all definitions evaluate by kernel reduction.
-/

/-- JSON values as produced by json.loads in the script: null, booleans,
integers, strings, arrays and objects (ordered key/value lists). -/
inductive Json where
  | null : Json
  | bool : Bool → Json
  | num : Int → Json
  | str : String → Json
  | arr : List Json → Json
  | obj : List (String × Json) → Json

/-- Python truthiness of a JSON value: None, False, 0, "", [], and
empty dicts are falsy, everything else is truthy. -/
def jsonTruthy : Json → Bool
  | .null => false
  | .bool b => b
  | .num n => n != 0
  | .str s => s != ""
  | .arr xs => !xs.isEmpty
  | .obj fs => !fs.isEmpty

/-- dict.get: the value stored under a key of a JSON object, if any. -/
def lookupJson (fs : List (String × Json)) (key : String) : Option Json :=
  (fs.find? (fun p => p.1 == key)).map (fun p => p.2)

/-- Python truthiness of dict.get output (None when the key is absent). -/
def optJsonTruthy : Option Json → Bool
  | some j => jsonTruthy j
  | none => false

/-- Python truthiness of an optional string (None or "" are falsy). -/
def optTruthy : Option String → Bool
  | some s => s != ""
  | none => false

mutual

/-- repr() of a JSON value, as Python renders values nested in containers. -/
def pyRepr : Json → String
  | .null => "None"
  | .bool true => "True"
  | .bool false => "False"
  | .num n => toString n
  | .str s => "\x27" ++ s ++ "\x27"
  | .arr xs => "[" ++ String.intercalate ", " (pyReprList xs) ++ "]"
  | .obj fs => "\x7b" ++ String.intercalate ", " (pyReprFields fs) ++ "\x7d"

/-- repr() of each element of a JSON array. -/
def pyReprList : List Json → List String
  | [] => []
  | j :: js => pyRepr j :: pyReprList js

/-- repr() of each key/value entry of a JSON object. -/
def pyReprFields : List (String × Json) → List String
  | [] => []
  | f :: fs => ("\x27" ++ f.1 ++ "\x27: " ++ pyRepr f.2) :: pyReprFields fs

end

/-- str() of a JSON value: strings print bare, other values as repr(). -/
def pyStr (j : Json) : String :=
  match j with
  | .str s => s
  | j => pyRepr j

/-- Split a character list at every occurrence of a separator character,
mirroring Python str.split(sep) for a one-character separator. -/
def splitOnCharList (sep : Char) : List Char → List (List Char)
  | [] => [[]]
  | c :: rest =>
    if c = sep then [] :: splitOnCharList sep rest
    else
      match splitOnCharList sep rest with
      | [] => [[c]]
      | y :: ys => (c :: y) :: ys

/-- Leading and trailing whitespace removed, mirroring str.strip(). -/
def trimChars (cs : List Char) : List Char :=
  ((cs.dropWhile Char.isWhitespace).reverse.dropWhile Char.isWhitespace).reverse

/-- str.strip() on strings. -/
def pyStrip (s : String) : String := String.mk (trimChars s.data)

/-- str.lower() on strings (ASCII case folding, as used by the script). -/
def pyLower (s : String) : String := String.mk (s.data.map Char.toLower)

/-- str.split(",") on strings. -/
def pySplitComma (s : String) : List String :=
  (splitOnCharList ',' s.data).map String.mk

/-- Does the first character list start the second one? -/
def charsStartWith : List Char → List Char → Bool
  | [], _ => true
  | _ :: _, [] => false
  | a :: as, b :: bs => a == b && charsStartWith as bs

/-- Substring test on character lists: Python's `needle in haystack`. -/
def charsContainSub (needle : List Char) : List Char → Bool
  | [] => needle.isEmpty
  | c :: rest => charsStartWith needle (c :: rest) || charsContainSub needle rest

/-- Python's `needle in haystack` on strings. -/
def containsSub (needle haystack : String) : Bool :=
  charsContainSub needle.data haystack.data

/-- str.rstrip("/"), used on the server-declared fleet base URL. -/
def rstripSlash (s : String) : String :=
  String.mk ((s.data.reverse.dropWhile (fun c => c = '/')).reverse)

/-- REGION_AUDIENCE from the script: the region-to-audience map, in the
source dictionary's insertion order. -/
def REGION_AUDIENCE : List (String × String) :=
  [("na", "https://fleet-api.prd.na.vn.cloud.tesla.com"),
   ("eu", "https://fleet-api.prd.eu.vn.cloud.tesla.com")]

/-- REGION_ORDER from the script: the fixed probe priority order. -/
def REGION_ORDER : List String := ["eu", "na"]

/-- AUTH_HOST from the script. -/
def AUTH_HOST : String := "auth.tesla.com"

/-- Audience URL of a region code (REGION_AUDIENCE[region] in the script,
which is only evaluated on known keys). -/
def region_audience (r : String) : String :=
  ((REGION_AUDIENCE.find? (fun p => p.1 == r)).map (fun p => p.2)).getD ""

/-- Membership of a region code in REGION_AUDIENCE's keys. -/
def isKnownRegion (r : String) : Bool :=
  REGION_AUDIENCE.any (fun p => p.1 == r)

/-- normalize_region_list from the script: split on commas, strip and
lowercase each item, keep only known region codes, drop duplicates while
preserving first-occurrence order. -/
def normalize_region_list (value : String) : List String :=
  (pySplitComma value).foldl
    (fun out item =>
      let region := pyLower (pyStrip item)
      if isKnownRegion region && !out.contains region then out ++ [region] else out)
    []

/-- main's post-parsing fix-up of --register-regions: an empty normalized
list is replaced by the default list ["eu", "na"]. -/
def resolved_register_regions (value : String) : List String :=
  let regions := normalize_region_list value
  if regions.isEmpty then ["eu", "na"] else regions

/-- Reference definition for first-occurrence de-duplication: keep each
element the first time it appears (relative to an accumulator of elements
already seen), used to state what normalize_region_list computes. -/
def dedupFirstAux : List String → List String → List String
  | _, [] => []
  | seen, x :: xs =>
    if seen.contains x then dedupFirstAux seen xs
    else x :: dedupFirstAux (seen ++ [x]) xs

/-- The known-region candidates of an input string: items split on commas,
stripped and lowercased, unknown codes dropped, duplicates kept. -/
def regionCandidates (value : String) : List String :=
  ((pySplitComma value).map (fun item => pyLower (pyStrip item))).filter isKnownRegion

/-- Split a character list at its first "://" occurrence, if any. -/
def splitSchemeSep : List Char → Option (List Char × List Char)
  | [] => none
  | ':' :: '/' :: '/' :: rest => some ([], rest)
  | c :: rest =>
    match splitSchemeSep rest with
    | some (a, b) => some (c :: a, b)
    | none => none

/-- str.partition(sep) for a one-character separator: the part before the
first occurrence, whether the separator occurred, and the part after it
(Python returns (s, "", "") when the separator is absent). -/
def partitionChar (sep : Char) : List Char → List Char × Bool × List Char
  | [] => ([], false, [])
  | c :: rest =>
    if c = sep then ([], true, rest)
    else
      let q := partitionChar sep rest
      (c :: q.1, q.2.1, q.2.2)

/-- Is a character an ASCII decimal digit? For an ASCII string this is
exactly Python\x27s str.isdigit character test. -/
def isAsciiDigit (c : Char) : Bool :=
  decide (48 ≤ c.toNat ∧ c.toNat ≤ 57)

/-- Decimal value of a digit character list. -/
def digitsToNat : List Char → Nat → Nat
  | [], acc => acc
  | c :: rest, acc => digitsToNat rest (acc * 10 + (c.toNat - 48))

/-- The components of a parsed URL that the script reads: scheme,
hostname, the raw port text, and path. The port number itself is a
property that can raise, modelled separately by ParsedUrl.port. -/
structure ParsedUrl where
  scheme : String
  hostname : Option String
  portRaw : Option (List Char)
  path : String

/-- Last element of a list, with a default for the empty list
(str.rpartition-style userinfo stripping keeps the part after the last
"@"). -/
def lastD (l : List (List Char)) (d : List Char) : List Char :=
  match l with
  | [] => d
  | [x] => x
  | _ :: xs => lastD xs d

/-- urllib.parse.urlparse as the script uses it. The scheme is the
lowercased text before the first "://" (for any other shape CPython
yields no netloc and the hostname is empty, so the script's check fails
either way); the netloc runs up to the first "/", "?" or "#"; userinfo
up to the last "@" is dropped; a leading "[" selects the bracketed host
form (host up to "]", port after the following ":"), otherwise the host
is the text before the first ":" and the raw port the text after it
(None when absent or empty); the hostname is lowercased up to any "%"
zone marker and None when empty; the path runs to any query or
fragment. -/
def urlparse (url : String) : ParsedUrl :=
  let (schemeRaw, rest) :=
    match splitSchemeSep url.data with
    | some (a, b) => (a, b)
    | none => ([], url.data)
  let scheme := String.mk (schemeRaw.map Char.toLower)
  let netloc := rest.takeWhile (fun c => c ≠ '/' ∧ c ≠ '?' ∧ c ≠ '#')
  let after := rest.drop netloc.length
  let path := after.takeWhile (fun c => c ≠ '?' ∧ c ≠ '#')
  let hostinfo := lastD (splitOnCharList '@' netloc) netloc
  let pbr := partitionChar '[' hostinfo
  let hostPort : List Char × List Char :=
    if pbr.2.1 then
      let pbk := partitionChar ']' pbr.2.2
      let ppt := partitionChar ':' pbk.2.2
      (pbk.1, ppt.2.2)
    else
      let pcl := partitionChar ':' hostinfo
      (pcl.1, pcl.2.2)
  let hostname : Option String :=
    if hostPort.1.isEmpty then none
    else
      let pz := partitionChar '%' hostPort.1
      some (String.mk ((pz.1.map Char.toLower) ++ (if pz.2.1 then '%' :: pz.2.2 else [])))
  { scheme := scheme
    hostname := hostname
    portRaw := if hostPort.2.isEmpty then none else some hostPort.2
    path := String.mk path }

/-- The urllib SplitResult.port property, as implemented by the CPython 3
in use (3.11: `if port.isdigit() and port.isascii(): port = int(port)
else: raise ValueError(...)`, then `if not (0 <= port <= 65535): raise
ValueError("Port out of range 0-65535")`): None when no port text is
present; a non-empty all-ASCII-digit text is its decimal value if within
0-65535; any other text (signs, underscores, whitespace, letters,
non-ASCII digits) and any value above 65535 raise ValueError (the error
case), which the script does not catch. -/
def ParsedUrl.port (p : ParsedUrl) : Except String (Option Nat) :=
  match p.portRaw with
  | none => Except.ok none
  | some cs =>
    if cs.all isAsciiDigit ∧ ¬cs.isEmpty then
      let n := digitsToNat cs 0
      if n ≤ 65535 then Except.ok (some n)
      else Except.error "ValueError: Port out of range 0-65535"
    else
      Except.error ("ValueError: Port could not be cast to integer value as \x27"
        ++ String.mk cs ++ "\x27")

/-- The error message run_oauth_browser_flow returns for a redirect URI it
cannot serve locally. -/
def redirectUriError : String :=
  "redirect_uri must be http://localhost:3000/callback style for local capture"

/-- Outcome of lines 170-175 of run_oauth_browser_flow: either the
(host, port, path) the HTTPServer would be constructed from, or the
early configuration-error return, or an uncaught exception raised while
reading parsed_redirect.port. -/
inductive CaptureInit where
  | ok : String × Nat × String → CaptureInit
  | configError : String → CaptureInit
  | raised : String → CaptureInit

/-- The redirect-URI validation at the top of run_oauth_browser_flow
(lines 170-175): parse the redirect target (reading .port may raise, and
that ValueError propagates), default a missing path to "/", and reject
with the configuration error unless the scheme is exactly "http" and
both hostname and port are present and truthy. -/
def capture_server_init (redirect_uri : String) : CaptureInit :=
  let parsed := urlparse redirect_uri
  match parsed.port with
  | Except.error m => CaptureInit.raised m
  | Except.ok port =>
    if parsed.scheme ≠ "http" ∨ parsed.hostname.getD "" = "" ∨ port.getD 0 = 0 then
      CaptureInit.configError redirectUriError
    else
      CaptureInit.ok (parsed.hostname.getD "",
        (port.getD 0, if parsed.path = "" then "/" else parsed.path))

/-- The mutable result dict shared between the request handler and the
orchestrator's wait loop: optional code, state and error strings. -/
structure CallbackResult where
  code : Option String
  state : Option String
  error : Option String

/-- The result dict as initialised before any request arrives. -/
def initialCallbackResult : CallbackResult :=
  { code := none, state := none, error := none }

/-- A GET request to the local listener: its path and its already-decoded
query parameters in order of appearance. -/
def CaptureRequest : Type := String × List (String × String)

/-- (parse_qs(query).get(key) or [None])[0]: the first non-blank value
supplied for a key (parse_qs drops blank values by default). -/
def pyParseQsFirst (q : List (String × String)) (key : String) : Option String :=
  ((q.filter (fun p => p.1 == key && p.2 != "")).head?).map (fun p => p.2)

/-- Handler.do_GET (lines 185-203): requests to any other path answer 404
and leave the result dict untouched; a request to the configured callback
path unconditionally reassigns all three result entries from its query
string and answers 200. -/
def handle_request (cfgPath : String) (r : CallbackResult) (req : CaptureRequest) :
    CallbackResult × Nat :=
  if req.1 ≠ cfgPath then (r, 404)
  else
    ({ code := pyParseQsFirst req.2 "code"
       state := pyParseQsFirst req.2 "state"
       error := pyParseQsFirst req.2 "error" }, 200)

/-- The result dict after the listener has handled a sequence of requests
in arrival order. -/
def process_requests (cfgPath : String) (reqs : List CaptureRequest) : CallbackResult :=
  reqs.foldl (fun r req => (handle_request cfgPath r req).1) initialCallbackResult

/-- The post-capture validation at the end of run_oauth_browser_flow
(lines 228-234), in source order: a truthy error fails as a provider
error, a missing code fails as a timeout, a state differing from the
generated one fails as a mismatch, otherwise the code is returned. -/
def validate_callback (genState : String) (r : CallbackResult) : String × String :=
  if optTruthy r.error then ("", "OAuth error from callback: " ++ r.error.getD "")
  else if !optTruthy r.code then ("", "Timed out waiting for callback code.")
  else if r.state ≠ some genState then ("", "State mismatch; aborting for safety.")
  else (r.code.getD "", "")

/-- The environment one run of the browser flow observes: whether binding
the listener raised an OSError (and its text), and the requests the
listener handles before the wait loop finishes. -/
structure FlowEnv where
  bindError : Option String
  requests : List CaptureRequest

/-- What a run of the flow leaves behind: the (code, error) pair it
returns, and whether the listener socket is still bound and its thread
was ever started when the function exits. -/
structure FlowOutcome where
  result : String × String
  serverBound : Bool
  threadStarted : Bool

/-- run_oauth_browser_flow (lines 169-234) as a function of its redirect
URI, the generated state nonce, and the observed environment; the error
case of the Except is an uncaught Python exception escaping the
function (a ValueError from reading the redirect port). A config error
returns before any socket exists; an OSError from HTTPServer returns
the bind diagnostic (TCPServer closes its socket before re-raising, and
the thread is never created); otherwise the listener thread runs, the
handled requests produce the final result dict, the finally block
always closes the server, and validation produces the returned pair. -/
def run_oauth_browser_flow (redirect_uri genState : String) (env : FlowEnv) :
    Except String FlowOutcome :=
  match capture_server_init redirect_uri with
  | CaptureInit.raised m => Except.error m
  | CaptureInit.configError e =>
    Except.ok { result := ("", e), serverBound := false, threadStarted := false }
  | CaptureInit.ok (host, port, path) =>
    match env.bindError with
    | some err =>
      Except.ok
        { result := ("", "Cannot bind callback server on " ++ host ++ ":" ++ toString port
                          ++ ": " ++ err)
          serverBound := false
          threadStarted := false }
    | none =>
      Except.ok
        { result := validate_callback genState (process_requests path env.requests)
          serverBound := false
          threadStarted := true }

/-- main lines 509-511: a truthy oauth error from the flow prints and
returns 1, so the authorization-code/token exchange POST only happens
when the flow's error component is empty. -/
def token_exchange_performed (flowResult : String × String) : Bool :=
  flowResult.2 == ""

/-- The minimal first registration payload: only the domain. -/
def minimal_payload (domain : String) : Json :=
  Json.obj [("domain", Json.str domain)]

/-- The second registration payload: domain plus explicit hosted-key URL. -/
def keyed_payload (domain key_url : String) : Json :=
  Json.obj [("domain", Json.str domain), ("public_key_url", Json.str key_url)]

/-- Lines 289-294 of register_partner_account: merge the two attempts'
JSON payloads preferring a truthy second one, take the merged dict's
"error" or "message" rendered and stripped, and fall back to the raw
bodies, again preferring the second attempt's. -/
def merged_error_text (payload payload2 : Json) (raw_err raw_err2 : String) : String :=
  let merged : Json :=
    if jsonTruthy payload2 then payload2
    else if jsonTruthy payload then payload
    else Json.obj []
  let errText : String :=
    match merged with
    | .obj fs =>
      let firstVal : Json :=
        match lookupJson fs "error" with
        | some e =>
          if jsonTruthy e then e
          else
            (match lookupJson fs "message" with
             | some m => if jsonTruthy m then m else Json.str ""
             | none => Json.str "")
        | none =>
          (match lookupJson fs "message" with
           | some m => if jsonTruthy m then m else Json.str ""
           | none => Json.str "")
      pyStrip (pyStr firstVal)
    | _ => ""
  if errText = "" then pyStrip (if raw_err2 ≠ "" then raw_err2 else raw_err)
  else errText

/-- register_partner_account (lines 278-300) as a function of the vendor's
response to each posted payload; the second component of the result is
the list of payloads actually POSTed, in order. A 2xx on the minimal
payload stops there with "registered"; otherwise the keyed payload is
tried; if both fail, the merged error text is matched case-insensitively
against "already" and "register" to reclassify as "already_registered",
else the outcome is a failure naming the second HTTP status. -/
def register_partner_account (domain key_url : String)
    (send : Json → Nat × Json × String) : (Bool × String) × List Json :=
  let p1 := minimal_payload domain
  let r1 := send p1
  if 200 ≤ r1.1 ∧ r1.1 < 300 then ((true, "registered"), [p1])
  else
    let p2 := keyed_payload domain key_url
    let r2 := send p2
    if 200 ≤ r2.1 ∧ r2.1 < 300 then ((true, "registered"), [p1, p2])
    else
      let errText := merged_error_text r1.2.1 r2.2.1 r1.2.2 r2.2.2
      let low := pyLower errText
      if containsSub "already" low && containsSub "register" low then
        ((true, "already_registered"), [p1, p2])
      else
        ((false,
          if errText ≠ "" then "HTTP " ++ toString r2.1 ++ ": " ++ errText
          else "HTTP " ++ toString r2.1), [p1, p2])

/-- verify_public_key (lines 303-311) as a function of the response to
its single GET: success with empty diagnostic iff the status is 2xx
(the body is never consulted on success); otherwise a failure whose text
carries the status and a best-effort reason. -/
def verify_public_key (status : Nat) (payload : Json) (raw_err : String) : Bool × String :=
  if 200 ≤ status ∧ status < 300 then (true, "")
  else
    let reason : Json :=
      match payload with
      | .obj fs => (lookupJson fs "error").getD Json.null
      | _ => Json.str ""
    let shown := if jsonTruthy reason then pyStr reason else raw_err
    (false, "HTTP " ++ toString status ++ ": " ++ shown)

/-- main lines 476-496, one region's registration step: a partner-token
error aborts with exit code 1, a failed registration aborts with exit
code 1, and otherwise the loop continues (the key-verification outcome is
only printed, never consulted for control flow). -/
def main_region_step (partner_err : String) (register_result _verify_result : Bool × String) :
    Option Nat :=
  if partner_err ≠ "" then some 1
  else if register_result.1 = false then some 1
  else none

/-- Lines 319-325 of detect_user_region_with_token: given a 2xx probed
payload, prefer a truthy, stripped fleet_api_base_url declared under the
payload's "response" dict (with trailing slashes removed), else the
statically configured audience for the probed region. -/
def region_result (audience : String) (payload : Json) : String × String :=
  let response : Option Json :=
    match payload with
    | .obj fs => lookupJson fs "response"
    | _ => none
  let fleet_url : String :=
    match response with
    | some (.obj rfs) =>
      let v : Json :=
        match lookupJson rfs "fleet_api_base_url" with
        | some j => if jsonTruthy j then j else Json.str ""
        | none => Json.str ""
      pyStrip (pyStr v)
    | _ => ""
  if fleet_url ≠ "" then (rstripSlash fleet_url, "") else (audience, "")

/-- The loop of detect_user_region_with_token over a remaining candidate
list: the first region whose probe answers 2xx produces the result, and
exhaustion produces the non-region error pair. -/
def detect_go (probe : String → Nat × Json) : List String → String × String
  | [] => ("", "Could not determine user region from /users/region")
  | region :: rest =>
    let r := probe region
    if 200 ≤ r.1 ∧ r.1 < 300 then region_result (region_audience region) r.2
    else detect_go probe rest

/-- detect_user_region_with_token (lines 314-326) as a function of each
region's probe response. -/
def detect_user_region_with_token (probe : String → Nat × Json) : String × String :=
  detect_go probe REGION_ORDER

/-- main lines 547-554: a forced --audience wins; otherwise region
detection runs, and a detection error is non-fatal — the EU audience is
substituted and the run proceeds. -/
def resolve_audience (forced : String) (detect_result : String × String) : String :=
  if forced ≠ "" then forced
  else if detect_result.2 ≠ "" then region_audience "eu"
  else detect_result.1

/-- fetch_vehicle_id (lines 329-342) as a function of the response to its
single GET. A non-2xx status yields an HTTP-status error pair; on 2xx the
payload's "response" list is consulted: a non-empty list whose first
element is a dict with a truthy "id" succeeds with str(id), any other
2xx shape yields the one generic "No vehicles" error. A first element
that is not a dict would raise AttributeError in Python, modelled as the
.error case. -/
def fetch_vehicle_id (status : Nat) (payload : Json) (raw_err : String) :
    Except String (String × String) :=
  if status < 200 ∨ 300 ≤ status then
    let reason : Json :=
      match payload with
      | .obj fs => (lookupJson fs "error").getD Json.null
      | _ => Json.str ""
    let shown := if jsonTruthy reason then pyStr reason else raw_err
    .ok ("", pyStrip ("HTTP " ++ toString status ++ ": " ++ shown))
  else
    let response : Option Json :=
      match payload with
      | .obj fs => lookupJson fs "response"
      | _ => none
    match response with
    | some (.arr (first :: _)) =>
      match first with
      | .obj ffs =>
        if optJsonTruthy (lookupJson ffs "id") then
          .ok (pyStr ((lookupJson ffs "id").getD Json.null), "")
        else .ok ("", "No vehicles returned from /vehicles response.")
      | _ => .error "AttributeError"
    | _ => .ok ("", "No vehicles returned from /vehicles response.")

/-- The bytes urllib.parse.quote never escapes: ASCII letters, digits,
and the characters "_", ".", "-", "~". -/
def isSafeByte (b : Nat) : Bool :=
  decide ((65 ≤ b ∧ b ≤ 90) ∨ (97 ≤ b ∧ b ≤ 122) ∨ (48 ≤ b ∧ b ≤ 57) ∨
          b = 95 ∨ b = 46 ∨ b = 45 ∨ b = 126)

/-- The byte of the uppercase hexadecimal digit for a value below 16. -/
def hexDigitByte (x : Nat) : Nat := if x < 10 then 48 + x else 55 + x

/-- Is a byte an ASCII hexadecimal digit? -/
def isHexByte (c : Nat) : Bool :=
  decide ((48 ≤ c ∧ c ≤ 57) ∨ (65 ≤ c ∧ c ≤ 70) ∨ (97 ≤ c ∧ c ≤ 102))

/-- Value of an ASCII hexadecimal digit byte. -/
def hexVal (c : Nat) : Nat :=
  if 48 ≤ c ∧ c ≤ 57 then c - 48
  else if 65 ≤ c ∧ c ≤ 70 then c - 55
  else if 97 ≤ c ∧ c ≤ 102 then c - 87
  else 0

/-- quote_plus on one byte: safe bytes pass through, a space becomes "+"
(byte 43), and every other byte becomes "%XX" (byte 37 and two uppercase
hex digit bytes). -/
def quoteByte (b : Nat) : List Nat :=
  if isSafeByte b then [b]
  else if b = 32 then [43]
  else [37, hexDigitByte (b / 16), hexDigitByte (b % 16)]

/-- urllib.parse.quote_plus over the UTF-8 bytes of a value, producing
the byte sequence of the encoded text. -/
def quote_plus : List Nat → List Nat
  | [] => []
  | b :: bs => quoteByte b ++ quote_plus bs

/-- urllib.parse.unquote_plus over the bytes of an encoded text: "+"
decodes to a space, "%" followed by two hex digits decodes to that byte
(a malformed escape stays literal), and every other byte passes through. -/
def unquote_plus : List Nat → List Nat
  | [] => []
  | c :: rest =>
    if c = 37 then
      match hr : rest with
      | h :: l :: rest2 =>
        if isHexByte h && isHexByte l then (16 * hexVal h + hexVal l) :: unquote_plus rest2
        else 37 :: unquote_plus (h :: l :: rest2)
      | _ => 37 :: unquote_plus rest
    else if c = 43 then 32 :: unquote_plus rest
    else c :: unquote_plus rest
termination_by l => l.length
decreasing_by
  all_goals simp_wf
  all_goals try subst hr
  all_goals omega

/-- One key=value segment of a form-encoded query: both sides
quote_plus-encoded and joined by "=" (byte 61). -/
def encode_pair (p : List Nat × List Nat) : List Nat :=
  quote_plus p.1 ++ 61 :: quote_plus p.2

/-- urllib.parse.urlencode: the encoded pairs joined by "&" (byte 38). -/
def urlencode : List (List Nat × List Nat) → List Nat
  | [] => []
  | [p] => encode_pair p
  | p :: ps => encode_pair p ++ 38 :: urlencode ps

/-- Split a byte list at every occurrence of a separator byte. -/
def splitOnByte (sep : Nat) : List Nat → List (List Nat)
  | [] => [[]]
  | c :: rest =>
    if c = sep then [] :: splitOnByte sep rest
    else
      match splitOnByte sep rest with
      | [] => [[c]]
      | y :: ys => (c :: y) :: ys

/-- Split a query segment at its first "=" (byte 61); a segment without
"=" yields an empty value. -/
def splitFirstEq : List Nat → List Nat × List Nat
  | [] => ([], [])
  | c :: rest =>
    if c = 61 then ([], rest)
    else
      let q := splitFirstEq rest
      (c :: q.1, q.2)

/-- Decoding of one key=value segment: both sides unquoted. -/
def decode_pair (seg : List Nat) : List Nat × List Nat :=
  let q := splitFirstEq seg
  (unquote_plus q.1, unquote_plus q.2)

/-- Standard decoding of a form-encoded query string: split on "&", then
split each segment at its first "=" and unquote both sides. -/
def decodeQuery (q : List Nat) : List (List Nat × List Nat) :=
  (splitOnByte 38 q).map decode_pair

/-- The character codes of a string (the script's parameters are ASCII
byte strings at this boundary). -/
def strBytes (s : String) : List Nat := s.data.map Char.toNat

/-- The query string produced by build_auth_url (lines 156-166): the five
parameters form-encoded in the source dictionary's order, response_type
first. -/
def build_auth_url_query (client_id redirect_uri scope st : List Nat) : List Nat :=
  urlencode
    [(strBytes "response_type", strBytes "code"),
     (strBytes "client_id", client_id),
     (strBytes "redirect_uri", redirect_uri),
     (strBytes "scope", scope),
     (strBytes "state", st)]

/-- build_auth_url: the fixed https authorize endpoint on AUTH_HOST with
the encoded query appended after "?". -/
def build_auth_url (client_id redirect_uri scope st : List Nat) : List Nat :=
  strBytes ("https://" ++ AUTH_HOST ++ "/oauth2/v3/authorize?")
    ++ build_auth_url_query client_id redirect_uri scope st

/-- The merged error text a doubly-failed registration run inspects,
as a function of the responses to the two posted payloads. -/
def register_failure_text (domain key_url : String)
    (send : Json → Nat × Json × String) : String :=
  merged_error_text (send (minimal_payload domain)).2.1 (send (keyed_payload domain key_url)).2.1
    (send (minimal_payload domain)).2.2 (send (keyed_payload domain key_url)).2.2

theorem unquote_plus_nil : unquote_plus [] = [] := by
  rw [unquote_plus.eq_def]

theorem unquote_plus_other (c : Nat) (cs : List Nat) (h1 : c ≠ 37) (h2 : c ≠ 43) :
    unquote_plus (c :: cs) = c :: unquote_plus cs := by
  rw [unquote_plus.eq_def]
  dsimp only
  rw [if_neg h1, if_neg h2]

theorem unquote_plus_space (cs : List Nat) :
    unquote_plus (43 :: cs) = 32 :: unquote_plus cs := by
  rw [unquote_plus.eq_def]
  dsimp only
  norm_num

theorem unquote_plus_escape (h l : Nat) (cs : List Nat)
    (hh : isHexByte h = true) (hl : isHexByte l = true) :
    unquote_plus (37 :: h :: l :: cs) = (16 * hexVal h + hexVal l) :: unquote_plus cs := by
  rw [unquote_plus.eq_def]
  dsimp only
  rw [hh, hl]
  rfl

theorem hexDigitByte_facts : ∀ x, x < 16 →
    isHexByte (hexDigitByte x) = true ∧ hexVal (hexDigitByte x) = x := by decide

theorem hexDigitByte_ne_sep (x : Nat) : hexDigitByte x ≠ 38 ∧ hexDigitByte x ≠ 61 := by
  unfold hexDigitByte
  split <;> omega

theorem safeByte_ne (b : Nat) (h : isSafeByte b = true) :
    b ≠ 37 ∧ b ≠ 43 ∧ b ≠ 38 ∧ b ≠ 61 := by
  simp only [isSafeByte, decide_eq_true_eq] at h
  omega

theorem unquote_quoteByte (b : Nat) (hb : b < 256) (cs : List Nat) :
    unquote_plus (quoteByte b ++ cs) = b :: unquote_plus cs := by
  by_cases hs : isSafeByte b = true
  · have hne := safeByte_ne b hs
    rw [quoteByte, if_pos hs, List.singleton_append]
    exact unquote_plus_other b cs hne.1 hne.2.1
  · by_cases h32 : b = 32
    · subst h32
      rw [quoteByte, if_neg hs, if_pos rfl, List.singleton_append]
      exact unquote_plus_space cs
    · rw [quoteByte, if_neg hs, if_neg h32]
      have hdiv : b / 16 < 16 := by omega
      have hmod : b % 16 < 16 := by omega
      have f1 := hexDigitByte_facts _ hdiv
      have f2 := hexDigitByte_facts _ hmod
      have step := unquote_plus_escape (hexDigitByte (b / 16)) (hexDigitByte (b % 16)) cs f1.1 f2.1
      simp only [List.cons_append, List.nil_append]
      rw [step, f1.2, f2.2]
      congr 1
      omega

theorem unquote_quote_append (bs cs : List Nat) (h : ∀ b ∈ bs, b < 256) :
    unquote_plus (quote_plus bs ++ cs) = bs ++ unquote_plus cs := by
  induction bs with
  | nil => simp [quote_plus]
  | cons b bs ih =>
    rw [quote_plus, List.append_assoc,
        unquote_quoteByte b (h b (List.mem_cons_self b bs)) (quote_plus bs ++ cs),
        ih (fun x hx => h x (List.mem_cons_of_mem b hx))]
    rfl

theorem unquote_quote (bs : List Nat) (h : ∀ b ∈ bs, b < 256) :
    unquote_plus (quote_plus bs) = bs := by
  have hh := unquote_quote_append bs [] h
  rw [List.append_nil, unquote_plus_nil, List.append_nil] at hh
  exact hh

theorem quoteByte_sep_free (b : Nat) : 38 ∉ quoteByte b ∧ 61 ∉ quoteByte b := by
  unfold quoteByte
  split
  · next hs =>
    have hne := safeByte_ne b hs
    simp only [List.mem_singleton]
    omega
  · split
    · simp
    · have h1 := hexDigitByte_ne_sep (b / 16)
      have h2 := hexDigitByte_ne_sep (b % 16)
      simp only [List.mem_cons, List.not_mem_nil, or_false]
      constructor
      · rintro (h | h | h) <;> omega
      · rintro (h | h | h) <;> omega

theorem quote_plus_sep_free (bs : List Nat) : 38 ∉ quote_plus bs ∧ 61 ∉ quote_plus bs := by
  induction bs with
  | nil => simp [quote_plus]
  | cons b bs ih =>
    have hb := quoteByte_sep_free b
    rw [quote_plus]
    simp only [List.mem_append]
    constructor
    · rintro (h | h)
      · exact hb.1 h
      · exact ih.1 h
    · rintro (h | h)
      · exact hb.2 h
      · exact ih.2 h

theorem splitOnByte_ne_nil (sep : Nat) (xs : List Nat) : splitOnByte sep xs ≠ [] := by
  induction xs with
  | nil => simp [splitOnByte]
  | cons c rest ih =>
    rw [splitOnByte]
    by_cases h : c = sep
    · simp [h]
    · rw [if_neg h]
      cases hs : splitOnByte sep rest <;> simp

theorem splitOnByte_not_mem (sep : Nat) (xs : List Nat) (h : sep ∉ xs) :
    splitOnByte sep xs = [xs] := by
  induction xs with
  | nil => rfl
  | cons c rest ih =>
    have hc : c ≠ sep := fun hh => h (hh ▸ List.mem_cons_self c rest)
    have hrest : sep ∉ rest := fun hh => h (List.mem_cons_of_mem c hh)
    rw [splitOnByte, if_neg hc, ih hrest]

theorem splitOnByte_append (sep : Nat) (xs ys : List Nat) (h : sep ∉ xs) :
    splitOnByte sep (xs ++ sep :: ys) = xs :: splitOnByte sep ys := by
  induction xs with
  | nil => simp [splitOnByte]
  | cons c rest ih =>
    have hc : c ≠ sep := fun hh => h (hh ▸ List.mem_cons_self c rest)
    have hrest : sep ∉ rest := fun hh => h (List.mem_cons_of_mem c hh)
    rw [List.cons_append, splitOnByte, if_neg hc, ih hrest]

theorem splitFirstEq_append (a b : List Nat) (h : 61 ∉ a) :
    splitFirstEq (a ++ 61 :: b) = (a, b) := by
  induction a with
  | nil => simp [splitFirstEq]
  | cons c rest ih =>
    have hc : c ≠ 61 := fun hh => h (hh ▸ List.mem_cons_self c rest)
    have hrest : 61 ∉ rest := fun hh => h (List.mem_cons_of_mem c hh)
    rw [List.cons_append, splitFirstEq, if_neg hc, ih hrest]

theorem encode_pair_no_amp (p : List Nat × List Nat) : 38 ∉ encode_pair p := by
  unfold encode_pair
  intro hmem
  rcases List.mem_append.mp hmem with h | h
  · exact (quote_plus_sep_free p.1).1 h
  · rcases List.mem_cons.mp h with h | h
    · omega
    · exact (quote_plus_sep_free p.2).1 h

theorem decode_encode_pair (p : List Nat × List Nat)
    (h1 : ∀ b ∈ p.1, b < 256) (h2 : ∀ b ∈ p.2, b < 256) :
    decode_pair (encode_pair p) = p := by
  obtain ⟨k, v⟩ := p
  unfold decode_pair encode_pair
  rw [splitFirstEq_append _ _ (quote_plus_sep_free k).2]
  dsimp only
  rw [unquote_quote k h1, unquote_quote v h2]

theorem decode_urlencode (ps : List (List Nat × List Nat)) (hne : ps ≠ [])
    (h : ∀ p ∈ ps, (∀ b ∈ p.1, b < 256) ∧ (∀ b ∈ p.2, b < 256)) :
    decodeQuery (urlencode ps) = ps := by
  induction ps with
  | nil => exact absurd rfl hne
  | cons p ps ih =>
    have hp := h p (List.mem_cons_self p ps)
    cases ps with
    | nil =>
      show decodeQuery (urlencode [p]) = [p]
      unfold decodeQuery urlencode
      rw [splitOnByte_not_mem 38 _ (encode_pair_no_amp p)]
      simp [decode_encode_pair p hp.1 hp.2]
    | cons p2 ps2 =>
      show decodeQuery (urlencode (p :: p2 :: ps2)) = p :: p2 :: ps2
      have henc : urlencode (p :: p2 :: ps2) = encode_pair p ++ 38 :: urlencode (p2 :: ps2) := by
        rw [urlencode.eq_def]
      unfold decodeQuery
      rw [henc, splitOnByte_append 38 _ _ (encode_pair_no_amp p), List.map_cons,
          decode_encode_pair p hp.1 hp.2]
      have := ih (by simp) (fun q hq => h q (List.mem_cons_of_mem p hq))
      unfold decodeQuery at this
      rw [this]

theorem contains_true_iff (l : List String) (y : String) : l.contains y = true ↔ y ∈ l := by
  simp [List.contains, List.elem_eq_mem]

theorem normalize_foldl_dedup (items : List String) (acc : List String) :
    items.foldl
      (fun out item =>
        let region := pyLower (pyStrip item)
        if isKnownRegion region && !out.contains region then out ++ [region] else out)
      acc
    = acc ++ dedupFirstAux acc ((items.map (fun item => pyLower (pyStrip item))).filter isKnownRegion) := by
  induction items generalizing acc with
  | nil => simp [dedupFirstAux]
  | cons item items ih =>
    rw [List.foldl_cons, List.map_cons]
    by_cases hknown : isKnownRegion (pyLower (pyStrip item)) = true
    · rw [List.filter_cons_of_pos hknown]
      by_cases hmem : acc.contains (pyLower (pyStrip item)) = true
      · have hcond : (isKnownRegion (pyLower (pyStrip item))
            && !acc.contains (pyLower (pyStrip item))) = false := by
          rw [hknown, hmem]; rfl
        simp only [hcond, Bool.false_eq_true, if_false]
        rw [ih acc, dedupFirstAux, if_pos hmem]
      · have hmemf : acc.contains (pyLower (pyStrip item)) = false :=
          Bool.eq_false_iff.mpr hmem
        have hcond : (isKnownRegion (pyLower (pyStrip item))
            && !acc.contains (pyLower (pyStrip item))) = true := by
          rw [hknown, hmemf]; rfl
        simp only [hcond, if_true]
        rw [ih (acc ++ [pyLower (pyStrip item)]), dedupFirstAux, if_neg hmem]
        simp [List.append_assoc]
    · have hknownf : isKnownRegion (pyLower (pyStrip item)) = false :=
        Bool.eq_false_iff.mpr hknown
      rw [List.filter_cons_of_neg (by simp [hknownf])]
      have hcond : (isKnownRegion (pyLower (pyStrip item))
          && !acc.contains (pyLower (pyStrip item))) = false := by
        rw [hknownf]; rfl
      simp only [hcond, Bool.false_eq_true, if_false]
      exact ih acc

theorem normalize_eq_dedup (value : String) :
    normalize_region_list value = dedupFirstAux [] (regionCandidates value) := by
  unfold normalize_region_list regionCandidates
  rw [normalize_foldl_dedup (pySplitComma value) []]
  rfl

theorem dedupFirstAux_not_seen (xs seen : List String) :
    ∀ y ∈ dedupFirstAux seen xs, y ∉ seen := by
  induction xs generalizing seen with
  | nil => intro y hy; simp [dedupFirstAux] at hy
  | cons x xs ih =>
    intro y hy
    rw [dedupFirstAux] at hy
    by_cases hx : seen.contains x = true
    · rw [if_pos hx] at hy
      exact ih seen y hy
    · rw [if_neg hx] at hy
      rcases List.mem_cons.mp hy with rfl | hy
      · exact fun hcon => hx ((contains_true_iff seen y).mpr hcon)
      · intro hcon
        exact ih (seen ++ [x]) y hy (List.mem_append_left [x] hcon)

theorem dedupFirstAux_nodup (xs seen : List String) : (dedupFirstAux seen xs).Nodup := by
  induction xs generalizing seen with
  | nil => simp [dedupFirstAux]
  | cons x xs ih =>
    rw [dedupFirstAux]
    by_cases hx : seen.contains x = true
    · rw [if_pos hx]
      exact ih seen
    · rw [if_neg hx]
      refine List.nodup_cons.mpr ⟨?_, ih (seen ++ [x])⟩
      intro hmem
      exact dedupFirstAux_not_seen xs (seen ++ [x]) x hmem
        (List.mem_append_right seen (List.mem_singleton.mpr rfl))

theorem dedupFirstAux_subset (xs seen : List String) :
    ∀ y ∈ dedupFirstAux seen xs, y ∈ xs := by
  induction xs generalizing seen with
  | nil => intro y hy; simp [dedupFirstAux] at hy
  | cons x xs ih =>
    intro y hy
    rw [dedupFirstAux] at hy
    by_cases hx : seen.contains x = true
    · rw [if_pos hx] at hy
      exact List.mem_cons_of_mem x (ih seen y hy)
    · rw [if_neg hx] at hy
      rcases List.mem_cons.mp hy with rfl | hy
      · exact List.mem_cons_self y xs
      · exact List.mem_cons_of_mem x (ih (seen ++ [x]) y hy)

/-- Claim C1: the claim says the first callback request's query
parameters are authoritative and later requests to the same path cannot
mutate the captured CallbackResult. Handler.do_GET instead reassigns the
shared result dict on every request to the callback path: after a first
request carrying code=AAA and a second carrying code=BBB, the stored
code is BBB — last write wins, contradicting the claimed
single-assignment behaviour. -/
theorem C1_second_request_overwrites :
    (process_requests "/callback"
        [("/callback", [("code", "AAA"), ("state", "S")]),
         ("/callback", [("code", "BBB"), ("state", "S")])]).code = some "BBB" ∧
    (process_requests "/callback"
        [("/callback", [("code", "AAA"), ("state", "S")]),
         ("/callback", [("code", "BBB"), ("state", "S")])]).code ≠ some "AAA" := by
  constructor
  · rfl
  · decide

/-- Claim C2: post-capture validation follows the source order — a truthy
error fails as the provider error, then a missing code fails as the
timeout, then a state differing from the generated nonce fails as the
mismatch — and for every generated state and every different
callback-supplied state arriving with a non-empty code and no error, the
flow returns the state-mismatch failure, whose non-empty error component
makes main return before the token-exchange POST is ever reached. -/
theorem C2_validation_order (genState B c : String) (r : CallbackResult)
    (hB : B ≠ genState) (hc : c ≠ "") :
    (optTruthy r.error = true →
      validate_callback genState r = ("", "OAuth error from callback: " ++ r.error.getD "")) ∧
    (optTruthy r.error = false → optTruthy r.code = false →
      validate_callback genState r = ("", "Timed out waiting for callback code.")) ∧
    (optTruthy r.error = false → optTruthy r.code = true → r.state ≠ some genState →
      validate_callback genState r = ("", "State mismatch; aborting for safety.")) ∧
    ((run_oauth_browser_flow "http://localhost:3000/callback" genState
        { bindError := none, requests := [("/callback", [("code", c), ("state", B)])] } =
      Except.ok { result := ("", "State mismatch; aborting for safety.")
                  serverBound := false
                  threadStarted := true }) ∧
     token_exchange_performed ("", "State mismatch; aborting for safety.") = false) := by
  refine ⟨?_, ?_, ?_, ?_⟩
  · intro he
    unfold validate_callback
    rw [if_pos he]
  · intro he hcode
    unfold validate_callback
    rw [if_neg (by simp [he]), if_pos (by simp [hcode])]
  · intro he hcode hst
    unfold validate_callback
    rw [if_neg (by simp [he]), if_neg (by simp [hcode]), if_pos hst]
  · have hcfg : capture_server_init "http://localhost:3000/callback" =
        CaptureInit.ok ("localhost", (3000, "/callback")) := rfl
    have hcodeq : pyParseQsFirst [("code", c), ("state", B)] "code" = some c := by
      unfold pyParseQsFirst
      rw [List.filter_cons_of_pos (by simp [hc])]
      rfl
    have hreq : process_requests "/callback" [("/callback", [("code", c), ("state", B)])] =
        { code := some c
          state := pyParseQsFirst [("code", c), ("state", B)] "state"
          error := pyParseQsFirst [("code", c), ("state", B)] "error" } := by
      unfold process_requests handle_request
      rw [List.foldl_cons, List.foldl_nil, if_neg (by simp), hcodeq]
    have herrq : pyParseQsFirst [("code", c), ("state", B)] "error" = none := by
      unfold pyParseQsFirst
      rw [List.filter_cons_of_neg (by simp), List.filter_cons_of_neg (by simp)]
      rfl
    have hvalid : validate_callback genState
        (process_requests "/callback" [("/callback", [("code", c), ("state", B)])]) =
        ("", "State mismatch; aborting for safety.") := by
      rw [hreq]
      unfold validate_callback
      rw [herrq]
      dsimp only
      rw [if_neg (by simp [optTruthy]), if_neg (by simp [optTruthy, hc])]
      by_cases hB0 : B = ""
      · subst hB0
        have hstq : pyParseQsFirst [("code", c), ("state", "")] "state" = none := by
          unfold pyParseQsFirst
          rw [List.filter_cons_of_neg (by simp), List.filter_cons_of_neg (by simp)]
          rfl
        rw [hstq, if_pos (by simp)]
      · have hstq : pyParseQsFirst [("code", c), ("state", B)] "state" = some B := by
          unfold pyParseQsFirst
          rw [List.filter_cons_of_neg (by simp),
              List.filter_cons_of_pos (by simp [hB0])]
          rfl
        rw [hstq, if_pos (by simp [hB])]
    have hflow : run_oauth_browser_flow "http://localhost:3000/callback" genState
        { bindError := none, requests := [("/callback", [("code", c), ("state", B)])] } =
        Except.ok { result := ("", "State mismatch; aborting for safety.")
                    serverBound := false
                    threadStarted := true } := by
      unfold run_oauth_browser_flow
      rw [hcfg]
      dsimp only
      rw [hvalid]
    exact ⟨hflow, rfl⟩

/-- Witness for C2: with generated state "A", callback state "B" and
code "x", the flow returns the state-mismatch failure. -/
theorem C2_witness :
    run_oauth_browser_flow "http://localhost:3000/callback" "A"
        { bindError := none, requests := [("/callback", [("code", "x"), ("state", "B")])] } =
      Except.ok { result := ("", "State mismatch; aborting for safety.")
                  serverBound := false
                  threadStarted := true } :=
  ((C2_validation_order "A" "B" "x" initialCallbackResult (by decide) (by decide)).2.2.2).1

/-- Claim C3 counterexample: at HTTP 200 with a non-empty vehicle list
whose first element has no identifier, fetch_vehicle_id does not succeed
(refuting "succeeds iff 2xx and non-empty") and returns exactly the same
"No vehicles returned from /vehicles response." error as the empty list
does, refuting the claimed distinct error. -/
theorem C3_counterexample :
    fetch_vehicle_id 200 (Json.obj [("response", Json.arr [Json.obj []])]) "" =
      Except.ok ("", "No vehicles returned from /vehicles response.") ∧
    fetch_vehicle_id 200 (Json.obj [("response", Json.arr [])]) "" =
      Except.ok ("", "No vehicles returned from /vehicles response.") := by
  constructor <;> rfl

/-- Claim C3 amended: discovery fails with an HTTP-status error for every
non-2xx response; on a 2xx response it selects the first list element in
response order and succeeds exactly when that element carries a truthy
identifier, whose str() it returns; and a present first element missing
(or with a falsy) identifier produces the same generic "No vehicles"
error as an empty list — not a distinct one. -/
theorem C3_amended (status : Nat) (payload : Json) (raw_err : String)
    (pfs ffs : List (String × Json)) (rest : List Json) (v : Json) :
    (status < 200 ∨ 300 ≤ status →
      ∃ msg, fetch_vehicle_id status payload raw_err = Except.ok ("", msg)) ∧
    (200 ≤ status → status < 300 →
      lookupJson pfs "response" = some (Json.arr (Json.obj ffs :: rest)) →
      lookupJson ffs "id" = some v → jsonTruthy v = true →
      fetch_vehicle_id status (Json.obj pfs) raw_err = Except.ok (pyStr v, "")) ∧
    (200 ≤ status → status < 300 →
      lookupJson pfs "response" = some (Json.arr (Json.obj ffs :: rest)) →
      optJsonTruthy (lookupJson ffs "id") = false →
      fetch_vehicle_id status (Json.obj pfs) raw_err =
        Except.ok ("", "No vehicles returned from /vehicles response.")) ∧
    (200 ≤ status → status < 300 →
      fetch_vehicle_id status (Json.obj [("response", Json.arr [])]) raw_err =
        Except.ok ("", "No vehicles returned from /vehicles response.")) := by
  refine ⟨?_, ?_, ?_, ?_⟩
  · intro hbad
    unfold fetch_vehicle_id
    rw [if_pos hbad]
    exact ⟨_, rfl⟩
  · intro h1 h2 hresp hid hv
    unfold fetch_vehicle_id
    rw [if_neg (by omega)]
    dsimp only
    rw [hresp]
    dsimp only
    rw [hid]
    dsimp only [optJsonTruthy]
    rw [hv]
    rfl
  · intro h1 h2 hresp hfalsy
    unfold fetch_vehicle_id
    rw [if_neg (by omega)]
    dsimp only
    rw [hresp]
    dsimp only
    rw [hfalsy]
    rfl
  · intro h1 h2
    unfold fetch_vehicle_id
    rw [if_neg (by omega)]
    rfl

/-- Witness for C3 at concrete inputs: a two-vehicle list returns the
first vehicle's id. -/
theorem C3_witness :
    fetch_vehicle_id 200
        (Json.obj [("response",
          Json.arr [Json.obj [("id", Json.str "42")], Json.obj [("id", Json.str "99")]])]) "" =
      Except.ok ("42", "") :=
  (C3_amended 200 Json.null ""
      [("response", Json.arr [Json.obj [("id", Json.str "42")], Json.obj [("id", Json.str "99")]])]
      [("id", Json.str "42")] [Json.obj [("id", Json.str "99")]] (Json.str "42")).2.1
    (by decide) (by decide) rfl rfl rfl

/-- Claim C10: when binding the callback listener raises an OSError, the
flow returns an empty code together with a diagnostic naming the bound
host and port instead of propagating the exception, the listener thread
is never started, and no socket remains bound (TCPServer closes the
socket before re-raising from its constructor). -/
theorem C10_bind_failure (uri genState err : String) (reqs : List CaptureRequest)
    (cfg : String × Nat × String)
    (hcfg : capture_server_init uri = CaptureInit.ok cfg) :
    run_oauth_browser_flow uri genState { bindError := some err, requests := reqs } =
      Except.ok
        { result := ("", "Cannot bind callback server on " ++ cfg.1 ++ ":" ++ toString cfg.2.1
                          ++ ": " ++ err)
          serverBound := false
          threadStarted := false } := by
  obtain ⟨h, p, pa⟩ := cfg
  unfold run_oauth_browser_flow
  rw [hcfg]

/-- Witness for C10: a failed bind on the default redirect target returns
the bind diagnostic with nothing started or bound. -/
theorem C10_witness :
    run_oauth_browser_flow "http://localhost:3000/callback" "S"
        { bindError := some "[Errno 48] Address already in use", requests := [] } =
      Except.ok
        { result := ("", "Cannot bind callback server on " ++ "localhost" ++ ":"
                          ++ toString (3000 : Nat) ++ ": " ++ "[Errno 48] Address already in use")
          serverBound := false
          threadStarted := false } :=
  C10_bind_failure "http://localhost:3000/callback" "S" "[Errno 48] Address already in use" []
    ("localhost", (3000, "/callback")) rfl

/-- Claim C5: region detection probes candidates in REGION_ORDER (eu
before na); a 2xx from the first candidate determines the result without
consulting the second probe; failing that, a 2xx from the second wins; a
winning payload's truthy server-declared fleet_api_base_url is preferred
(stripped, with trailing slashes removed) over the static audience,
which is otherwise returned; and exhausting all candidates yields a
non-fatal error pair that main replaces with the default EU audience
before proceeding. -/
theorem C5_region_detection (probe : String → Nat × Json) (aud s : String) :
    (200 ≤ (probe "eu").1 → (probe "eu").1 < 300 →
      detect_user_region_with_token probe =
        region_result (region_audience "eu") (probe "eu").2) ∧
    (¬(200 ≤ (probe "eu").1 ∧ (probe "eu").1 < 300) →
      200 ≤ (probe "na").1 → (probe "na").1 < 300 →
      detect_user_region_with_token probe =
        region_result (region_audience "na") (probe "na").2) ∧
    (region_result aud (Json.obj [("response", Json.obj [("fleet_api_base_url", Json.str s)])]) =
      (if pyStrip s = "" then (aud, "") else (rstripSlash (pyStrip s), ""))) ∧
    (region_result aud (Json.obj []) = (aud, "")) ∧
    (¬(200 ≤ (probe "eu").1 ∧ (probe "eu").1 < 300) →
      ¬(200 ≤ (probe "na").1 ∧ (probe "na").1 < 300) →
      detect_user_region_with_token probe =
        ("", "Could not determine user region from /users/region") ∧
      resolve_audience "" (detect_user_region_with_token probe) = region_audience "eu") := by
  have hgo : detect_user_region_with_token probe =
      (if 200 ≤ (probe "eu").1 ∧ (probe "eu").1 < 300 then
        region_result (region_audience "eu") (probe "eu").2
       else if 200 ≤ (probe "na").1 ∧ (probe "na").1 < 300 then
        region_result (region_audience "na") (probe "na").2
       else ("", "Could not determine user region from /users/region")) := rfl
  refine ⟨?_, ?_, ?_, rfl, ?_⟩
  · intro ha hb
    rw [hgo, if_pos ⟨ha, hb⟩]
  · intro hno ha hb
    rw [hgo, if_neg hno, if_pos ⟨ha, hb⟩]
  · by_cases hs : s = ""
    · subst hs
      rfl
    · have htr : jsonTruthy (Json.str s) = true := by
        simp [jsonTruthy, hs]
      have hred : region_result aud
          (Json.obj [("response", Json.obj [("fleet_api_base_url", Json.str s)])]) =
          (if pyStrip (pyStr (if jsonTruthy (Json.str s) then Json.str s else Json.str "")) ≠ ""
           then (rstripSlash (pyStrip (pyStr
                  (if jsonTruthy (Json.str s) then Json.str s else Json.str ""))), "")
           else (aud, "")) := rfl
      rw [hred, if_pos htr]
      show (if pyStrip s ≠ "" then (rstripSlash (pyStrip s), "") else (aud, "")) = _
      by_cases hstrip : pyStrip s = ""
      · rw [if_neg (by simp [hstrip]), if_pos hstrip]
      · rw [if_pos hstrip, if_neg hstrip]
  · intro hno1 hno2
    have hdet : detect_user_region_with_token probe =
        ("", "Could not determine user region from /users/region") := by
      rw [hgo, if_neg hno1, if_neg hno2]
    refine ⟨hdet, ?_⟩
    rw [hdet]
    rfl

/-- Witness for C5: with both probes failing, detection returns the
non-region error pair. -/
theorem C5_witness :
    detect_user_region_with_token
        (fun r => if r = "eu" then (500, Json.null) else (404, Json.null)) =
      ("", "Could not determine user region from /users/region") :=
  ((C5_region_detection (fun r => if r = "eu" then (500, Json.null) else (404, Json.null))
      "" "").2.2.2.2 (by decide) (by decide)).1

/-- Claim C6: registration makes at most two attempts — the minimal
domain-only payload first and, only if it fails, the payload adding the
hosted-key URL; a 2xx first attempt stops after one POST with outcome
"registered"; the merged error text prefers a truthy second-attempt
payload (the result is then independent of the first payload); and when
both attempts fail, a merged text containing both "already" and
"register" case-insensitively yields the terminal success
already_registered (first component true, like registered), while any
other text yields a failure. -/
theorem C6_registration (domain key_url : String) (send : Json → Nat × Json × String) :
    ((register_partner_account domain key_url send).2 = [minimal_payload domain] ∨
     (register_partner_account domain key_url send).2 =
       [minimal_payload domain, keyed_payload domain key_url]) ∧
    (200 ≤ (send (minimal_payload domain)).1 → (send (minimal_payload domain)).1 < 300 →
      register_partner_account domain key_url send =
        ((true, "registered"), [minimal_payload domain])) ∧
    (∀ pA pB p2 r r2, jsonTruthy p2 = true →
      merged_error_text pA p2 r r2 = merged_error_text pB p2 r r2) ∧
    (¬(200 ≤ (send (minimal_payload domain)).1 ∧ (send (minimal_payload domain)).1 < 300) →
     ¬(200 ≤ (send (keyed_payload domain key_url)).1 ∧
        (send (keyed_payload domain key_url)).1 < 300) →
      ((containsSub "already" (pyLower (register_failure_text domain key_url send)) &&
        containsSub "register" (pyLower (register_failure_text domain key_url send))) = true →
        register_partner_account domain key_url send =
          ((true, "already_registered"), [minimal_payload domain, keyed_payload domain key_url])) ∧
      ((containsSub "already" (pyLower (register_failure_text domain key_url send)) &&
        containsSub "register" (pyLower (register_failure_text domain key_url send))) = false →
        (register_partner_account domain key_url send).1.1 = false)) := by
  refine ⟨?_, ?_, ?_, ?_⟩
  · unfold register_partner_account
    dsimp only
    split
    · exact Or.inl rfl
    · split
      · exact Or.inr rfl
      · split
        · exact Or.inr rfl
        · exact Or.inr rfl
  · intro h1 h2
    unfold register_partner_account
    dsimp only
    rw [if_pos ⟨h1, h2⟩]
  · intro pA pB p2 r r2 hp2
    unfold merged_error_text
    rw [if_pos hp2, if_pos hp2]
  · intro hno1 hno2
    constructor
    · intro hheur
      unfold register_failure_text at hheur
      unfold register_partner_account
      dsimp only
      rw [if_neg hno1, if_neg hno2, if_pos hheur]
    · intro hheurf
      unfold register_failure_text at hheurf
      unfold register_partner_account
      dsimp only
      rw [if_neg hno1, if_neg hno2, if_neg (by simp [hheurf])]

/-- Witness for C6: both attempts fail and the second vendor payload
says "Domain already registered", so the outcome is already_registered
after exactly the two payloads were posted. -/
theorem C6_witness :
    register_partner_account "example.com" "https://example.com/pk.pem"
        (fun p => match p with
          | Json.obj [_] => (422, Json.null, "")
          | _ => (409, Json.obj [("error", Json.str "Domain already registered")], "")) =
      ((true, "already_registered"),
        [minimal_payload "example.com", keyed_payload "example.com" "https://example.com/pk.pem"]) :=
  ((C6_registration "example.com" "https://example.com/pk.pem"
      (fun p => match p with
        | Json.obj [_] => (422, Json.null, "")
        | _ => (409, Json.obj [("error", Json.str "Domain already registered")], ""))).2.2.2
    (by decide) (by decide)).1 (by decide)

/-- Claim C7: the Authorization URL Builder is a pure function whose
produced URL is the fixed authorize endpoint followed by the
form-encoding of response_type=code plus the four inputs, and decoding
that query string recovers exactly the client_id, redirect_uri, scope
and state it was built from, for every choice of the four (byte-string)
inputs. -/
theorem C7_auth_url_roundtrip (client_id redirect_uri scope st : List Nat)
    (h1 : ∀ b ∈ client_id, b < 256) (h2 : ∀ b ∈ redirect_uri, b < 256)
    (h3 : ∀ b ∈ scope, b < 256) (h4 : ∀ b ∈ st, b < 256) :
    decodeQuery (build_auth_url_query client_id redirect_uri scope st) =
      [(strBytes "response_type", strBytes "code"),
       (strBytes "client_id", client_id),
       (strBytes "redirect_uri", redirect_uri),
       (strBytes "scope", scope),
       (strBytes "state", st)] ∧
    build_auth_url client_id redirect_uri scope st =
      strBytes "https://auth.tesla.com/oauth2/v3/authorize?" ++
        build_auth_url_query client_id redirect_uri scope st := by
  constructor
  · unfold build_auth_url_query
    apply decode_urlencode
    · simp
    · intro p hp
      simp only [List.mem_cons, List.not_mem_nil, or_false] at hp
      rcases hp with rfl | rfl | rfl | rfl | rfl
      · exact ⟨(by decide : ∀ b ∈ strBytes "response_type", b < 256),
               (by decide : ∀ b ∈ strBytes "code", b < 256)⟩
      · exact ⟨(by decide : ∀ b ∈ strBytes "client_id", b < 256), h1⟩
      · exact ⟨(by decide : ∀ b ∈ strBytes "redirect_uri", b < 256), h2⟩
      · exact ⟨(by decide : ∀ b ∈ strBytes "scope", b < 256), h3⟩
      · exact ⟨(by decide : ∀ b ∈ strBytes "state", b < 256), h4⟩
  · rfl

/-- Witness for C7 at concrete inputs, including reserved characters in
the scope and redirect URI that must round-trip through the encoding. -/
theorem C7_witness :
    decodeQuery (build_auth_url_query (strBytes "cid")
        (strBytes "http://localhost:3000/callback")
        (strBytes "openid offline_access vehicle_device_data") (strBytes "st4te")) =
      [(strBytes "response_type", strBytes "code"),
       (strBytes "client_id", strBytes "cid"),
       (strBytes "redirect_uri", strBytes "http://localhost:3000/callback"),
       (strBytes "scope", strBytes "openid offline_access vehicle_device_data"),
       (strBytes "state", strBytes "st4te")] :=
  (C7_auth_url_roundtrip (strBytes "cid") (strBytes "http://localhost:3000/callback")
      (strBytes "openid offline_access vehicle_device_data") (strBytes "st4te")
      (by decide) (by decide) (by decide) (by decide)).1

/-- Claim C8: public-key verification succeeds exactly on a 2xx status,
in which case its result is (true, "") whatever the body and raw error
were — the body is never inspected — and main's per-region step never
aborts on a verification failure once the partner token and registration
succeeded: the verification outcome is only reported. -/
theorem C8_verify_public_key (status : Nat) (payload : Json) (raw_err : String)
    (v : Bool × String) (m : String) :
    ((verify_public_key status payload raw_err).1 = true ↔ 200 ≤ status ∧ status < 300) ∧
    (200 ≤ status → status < 300 → verify_public_key status payload raw_err = (true, "")) ∧
    main_region_step "" (true, m) v = none := by
  refine ⟨?_, ?_, rfl⟩
  · unfold verify_public_key
    by_cases h : 200 ≤ status ∧ status < 300
    · rw [if_pos h]
      simp [h]
    · rw [if_neg h]
      simp [h]
  · intro ha hb
    unfold verify_public_key
    rw [if_pos ⟨ha, hb⟩]

/-- Witness for C8: a 204 with an arbitrary body verifies as (true, ""). -/
theorem C8_witness :
    verify_public_key 204 (Json.obj [("ignored", Json.str "body")]) "raw" = (true, "") :=
  (C8_verify_public_key 204 (Json.obj [("ignored", Json.str "body")]) "raw"
      (false, "verify failed") "already_registered").2.1 (by decide) (by decide)

/-- Claim C9: region-list normalization returns the known region codes of
the comma-separated input, stripped and lowercased, without duplicates,
in first-occurrence order (it equals first-occurrence de-duplication of
the known candidates), and main replaces an empty normalization result
with the full default list ["eu", "na"] while keeping a non-empty one. -/
theorem C9_normalize_regions (value : String) :
    normalize_region_list value = dedupFirstAux [] (regionCandidates value) ∧
    (normalize_region_list value).Nodup ∧
    (∀ r ∈ normalize_region_list value, isKnownRegion r = true) ∧
    (normalize_region_list value = [] → resolved_register_regions value = ["eu", "na"]) ∧
    (normalize_region_list value ≠ [] →
      resolved_register_regions value = normalize_region_list value) := by
  have hdedup := normalize_eq_dedup value
  refine ⟨hdedup, ?_, ?_, ?_, ?_⟩
  · rw [hdedup]
    exact dedupFirstAux_nodup _ _
  · intro r hr
    rw [hdedup] at hr
    exact List.of_mem_filter (dedupFirstAux_subset _ _ r hr)
  · intro hempty
    unfold resolved_register_regions
    rw [hempty]
    rfl
  · intro hne
    unfold resolved_register_regions
    cases h : normalize_region_list value with
    | nil => exact absurd h hne
    | cons x xs =>
      rfl

/-- Witness for C9: an input with only unknown codes normalizes to the
empty list, which main replaces by the default region list. -/
theorem C9_witness : resolved_register_regions "bogus" = ["eu", "na"] :=
  (C9_normalize_regions "bogus").2.2.2.1 (by decide)
